import Mathlib

/-!
Shallow embedding of the matching and scoring engine of the getdealscout
repository (file src/amazon_matcher.py) and proofs about it.

Modelling conventions:
- Python float prices are modelled as rationals; Keepa integer cents as Int.
- Python dictionaries with optional keys become structures with Option
  fields; a .get with a default becomes a plain field holding that default.
- Python truthiness of an optional number (None or 0 are falsy) is the
  predicate truthyQ / truthyInt; truthiness of an optional string is
  truthyStr; a possibly-missing list field is a plain list, with the empty
  list standing for both None and [] (the code only tests truthiness and
  both are falsy, so the behaviours coincide).
- A Python exception escaping a function is modelled by an Option-valued
  result (none = the call raised), and a caught exception by taking the
  handler branch.
- Pure log strings (print calls, the warnings list of validate_opportunity,
  and the prompt text sent to the AI) are elided: no claim mentions them.
-/

/-! ## Validation threshold constants (module level in the source) -/

def SALES_RANK_EXCELLENT : Int := 10000

def SALES_RANK_GOOD : Int := 50000

def SALES_RANK_POOR : Int := 100000

def MIN_PROFIT : ℚ := 10

def MIN_OFFERS : Int := 2

/-! ## Python truthiness helpers -/

/-- Truthiness of an optional number: None and 0 are falsy. -/
def truthyQ : Option ℚ → Bool
  | none => false
  | some x => x != 0

/-- Truthiness of an optional integer: None and 0 are falsy. -/
def truthyInt : Option Int → Bool
  | none => false
  | some n => n != 0

/-- Truthiness of an optional string: None and the empty string are falsy. -/
def truthyStr : Option String → Bool
  | none => false
  | some s => !s.isEmpty

/-- Falsiness of an optional number, mirroring the Python test
(not costco_price). -/
def falsyQ (x : Option ℚ) : Bool := !truthyQ x

/-! ## Data model: raw Keepa product records and parsed product data -/

/-- Sub-fields of the fbaFees dictionary of a Keepa record; a missing
sub-key defaults to 0 in the source (.get with default 0), so the fields
are plain integers. -/
structure FbaFeesData where
  pickAndPackFee : Int
  storageFee : Int
deriving DecidableEq, Repr

/-- A raw Keepa product record, holding exactly the keys the source reads.
The csv field is the list of time series (index 1 = buy-box/new price in
cents, index 3 = sales rank); a missing or null series is the empty list. -/
structure KeepaData where
  csv : List (List Int)
  fbaFees : Option FbaFeesData
  offerCountFBA : Int
  categoryTree : List (Option String)
  packageHeight : Option Int
  packageLength : Option Int
  packageWidth : Option Int
  packageWeight : Option Int
  itemCount : Option Int
  asin : Option String
  title : Option String
deriving DecidableEq, Repr

/-- Package dimensions in inches, as built by parse_keepa_product. -/
structure PackageDims where
  height : ℚ
  length : ℚ
  width : ℚ
deriving DecidableEq, Repr

/-- The dictionary returned by parse_keepa_product. -/
structure ProductData where
  asin : Option String
  title : Option String
  amazon_price : Option ℚ
  amazon_url : Option String
  fba_fees : ℚ
  sales_rank : Option Int
  category : String
  offer_count : Int
  price_history : List ℚ
  package_dimensions : Option PackageDims
  package_weight : Option ℚ
  item_count : Int
deriving DecidableEq, Repr

/-! ## Candidate parser: parse_keepa_product -/

/-- The channel-1 price series the parser reads: guarded by the truthiness
of csv, len(csv) > 1 and the truthiness of csv[1]; empty outside the guard
(amazon_price stays None and price_history stays [] there). -/
def channel1 (kd : KeepaData) : List Int :=
  if kd.csv ≠ [] ∧ 1 < kd.csv.length ∧ kd.csv.getD 1 [] ≠ [] then
    kd.csv.getD 1 []
  else []

/-- Buy-box price extraction: the last sample of the channel-1 series,
divided by 100, but only when that last sample is strictly positive. -/
def amazon_price_of (kd : KeepaData) : Option ℚ :=
  match (channel1 kd).getLast? with
  | some latest_price =>
      if 0 < latest_price then some ((latest_price : ℚ) / 100) else none
  | none => none

/-- Price history: every strictly positive sample of the channel-1 series,
divided by 100 (list comprehension with filter p > 0 in the source). -/
def price_history_of (kd : KeepaData) : List ℚ :=
  ((channel1 kd).filter (fun p => decide (0 < p))).map
    (fun (p : Int) => (p : ℚ) / 100)

/-- FBA fees: pickAndPackFee plus storageFee over 100, or 0 when the
fbaFees dictionary is absent. -/
def fba_fees_of (kd : KeepaData) : ℚ :=
  match kd.fbaFees with
  | some f => ((f.pickAndPackFee + f.storageFee : Int) : ℚ) / 100
  | none => 0

/-- Sales rank: last sample of csv[3] when present and strictly positive. -/
def sales_rank_of (kd : KeepaData) : Option Int :=
  if kd.csv ≠ [] ∧ 3 < kd.csv.length ∧ kd.csv.getD 3 [] ≠ [] then
    match (kd.csv.getD 3 []).getLast? with
    | some latest_rank => if 0 < latest_rank then some latest_rank else none
    | none => none
  else none

/-- Category: name of the first categoryTree entry, defaulting to Unknown. -/
def category_of (kd : KeepaData) : String :=
  match kd.categoryTree with
  | [] => "Unknown"
  | c :: _ => c.getD "Unknown"

/-- Package dimensions, present only when all three fields are truthy;
Keepa reports hundredths of inches. -/
def package_dimensions_of (kd : KeepaData) : Option PackageDims :=
  if truthyInt kd.packageHeight ∧ truthyInt kd.packageLength ∧ truthyInt kd.packageWidth then
    some { height := ((kd.packageHeight.getD 0 : Int) : ℚ) / 100,
           length := ((kd.packageLength.getD 0 : Int) : ℚ) / 100,
           width := ((kd.packageWidth.getD 0 : Int) : ℚ) / 100 }
  else none

/-- Package weight in pounds (Keepa reports grams; 453.592 g per pound). -/
def package_weight_of (kd : KeepaData) : Option ℚ :=
  if truthyInt kd.packageWeight then
    some ((kd.packageWeight.getD 0 : Int) / (453592 / 1000 : ℚ))
  else none

/-- The candidate parser parse_keepa_product of src/amazon_matcher.py. -/
def parse_keepa_product (kd : KeepaData) : ProductData :=
  { asin := kd.asin
    title := kd.title
    amazon_price := amazon_price_of kd
    amazon_url :=
      if truthyStr kd.asin then
        some ("https://www.amazon.com/dp/" ++ kd.asin.getD "")
      else none
    fba_fees := fba_fees_of kd
    sales_rank := sales_rank_of kd
    category := category_of kd
    offer_count := kd.offerCountFBA
    price_history := price_history_of kd
    package_dimensions := package_dimensions_of kd
    package_weight := package_weight_of kd
    item_count := kd.itemCount.getD 1 }

/-! ## Profitability calculator: calculate_profit -/

/-- The dictionary returned by calculate_profit. -/
structure ProfitResult where
  profit : Option ℚ
  roi : Option ℚ
deriving DecidableEq, Repr

/-- The fixed marketplace referral rate (0.15 in the source). -/
def amazon_referral_rate : ℚ := 15 / 100

/-- Rounding to 2 decimal places at the boundary (round(x, 2)). -/
def round2 (q : ℚ) : ℚ := ((round (q * 100) : ℤ) : ℚ) / 100

/-- The profitability calculator calculate_profit of src/amazon_matcher.py.
Inputs are optional because the record store may lack either price; the
guard is Python falsiness (None or 0). -/
def calculate_profit (costco_price amazon_price : Option ℚ) (fba_fees : ℚ) :
    ProfitResult :=
  if falsyQ costco_price || falsyQ amazon_price then
    { profit := none, roi := none }
  else
    let cp := costco_price.getD 0
    let ap := amazon_price.getD 0
    let amazon_referral := ap * amazon_referral_rate
    let profit := ap - cp - fba_fees - amazon_referral
    let roi := if 0 < cp then profit / cp * 100 else 0
    { profit := some (round2 profit), roi := some (round2 roi) }

/-! ## Opportunity validator: validate_opportunity -/

/-- The status classification of validate_opportunity. -/
inductive Status where
  | Profitable
  | Potential
  | Risky
deriving DecidableEq, Repr

/-- The triple returned by validate_opportunity (the warnings list of log
strings is elided). -/
structure VResult where
  is_valid : Bool
  confidence : Int
  status : Status
deriving DecidableEq, Repr

/-- Layer 1 of validate_opportunity: sales-rank adjustment. -/
def layer1_sales_rank (sales_rank : Option Int) : Int :=
  if truthyInt sales_rank then
    let r := sales_rank.getD 0
    if r < SALES_RANK_EXCELLENT then 25
    else if r < SALES_RANK_GOOD then 15
    else if r < SALES_RANK_POOR then 5
    else -20
  else -10

/-- Layer 2 of validate_opportunity: profit-margin adjustment. -/
def layer2_profit_margin (profit : Option ℚ) : Int :=
  if truthyQ profit then
    let p := profit.getD 0
    if 50 ≤ p then 20
    else if 25 ≤ p then 15
    else if MIN_PROFIT ≤ p then 10
    else -30
  else -40

/-- Layer 3 of validate_opportunity: competition adjustment. -/
def layer3_competition (offer_count : Int) : Int :=
  if 5 ≤ offer_count then 10
  else if MIN_OFFERS ≤ offer_count then 5
  else -15

/-- Layer 4 of validate_opportunity: price-stability adjustment. It runs
only when the history holds at least 10 samples and the current price is
truthy; outside that it contributes 0. Inside, the source divides by the
historical mean, so a zero mean raises ZeroDivisionError (modelled none). -/
def layer4_price_stability (price_history : List ℚ) (current_price : Option ℚ) :
    Option Int :=
  if 10 ≤ price_history.length ∧ truthyQ current_price = true then
    let avg_price := price_history.sum / (price_history.length : ℚ)
    if avg_price = 0 then none
    else
      let price_variance := |current_price.getD 0 - avg_price| / avg_price
      some (if price_variance < 10 / 100 then 10
            else if price_variance < 25 / 100 then 5
            else -15)
  else some 0

/-- The status and clamping block closing validate_opportunity (the status
is computed from the pre-clamp confidence in the source). -/
def finalize (confidence : Int) : VResult :=
  let status : Status :=
    if 80 ≤ confidence then .Profitable
    else if 60 ≤ confidence then .Potential
    else .Risky
  let clamped : Int := max 0 (min 100 confidence)
  { is_valid := decide (60 ≤ clamped), confidence := clamped, status := status }

/-- The opportunity validator validate_opportunity of src/amazon_matcher.py:
baseline 50 plus the four layers, then status and clamping. The result is
none exactly when layer 4 raises ZeroDivisionError. -/
def validate_opportunity (amazon_data : ProductData) (profit : Option ℚ) :
    Option VResult :=
  match layer4_price_stability amazon_data.price_history amazon_data.amazon_price with
  | none => none
  | some stability =>
      some (finalize (50 + layer1_sales_rank amazon_data.sales_rank
        + layer2_profit_margin profit
        + layer3_competition amazon_data.offer_count + stability))

/-! ## Match selector: validate_best_amazon_match -/

/-- The parsed strict-JSON judgment response: best_match_index is read with
a bare subscript (a missing key raises KeyError, caught by the handler),
confidence with .get defaulting to 0. -/
structure AIResponse where
  best_match_index : Option Int
  confidence : Option Int
deriving DecidableEq, Repr

/-- Outcome of the judgment call: either a parsed JSON object, or a failure
(API error or unparseable output) that lands in the exception handler. -/
inductive Judgment where
  | parsed : AIResponse → Judgment
  | failure : Judgment
deriving DecidableEq

/-- The value returned by validate_best_amazon_match on success: the parsed
product dictionary with the match_confidence key added. -/
structure MatchOut where
  product : ProductData
  match_confidence : Int
deriving DecidableEq, Repr

/-- Python list subscript semantics: non-negative indices from the front,
negative indices from the back, out of range raises (modelled none). -/
def pyGet {α : Type} (l : List α) (i : Int) : Option α :=
  if 0 ≤ i then l.get? i.toNat
  else if 0 ≤ (l.length : Int) + i then l.get? ((l.length : Int) + i).toNat
  else none

/-- The exception-handler fallback of validate_best_amazon_match: first
result with the default confidence 70, or None for an empty result list. -/
def fallback_first (amazon_results : List KeepaData) : Option MatchOut :=
  match amazon_results with
  | [] => none
  | r :: _ => some { product := parse_keepa_product r, match_confidence := 70 }

/-- The judged match selector validate_best_amazon_match of
src/amazon_matcher.py, as a function of the raw search results and the
judgment outcome. On a parsed response: if confidence is at least 75, the
source subscripts amazon_results with best_match_index - 1 (a KeyError on
best_match_index or an IndexError on the subscript is caught by the same
handler that covers API errors, which falls back); below 75 it returns
None. -/
def validate_best_amazon_match (amazon_results : List KeepaData) (j : Judgment) :
    Option MatchOut :=
  match j with
  | .failure => fallback_first amazon_results
  | .parsed match_data =>
      if 75 ≤ match_data.confidence.getD 0 then
        match match_data.best_match_index with
        | none => fallback_first amazon_results
        | some bmi =>
            match pyGet amazon_results (bmi - 1) with
            | none => fallback_first amazon_results
            | some chosen =>
                some { product := parse_keepa_product chosen,
                       match_confidence := match_data.confidence.getD 0 }
      else none

/-! ## ASIN override path of match_products -/

/-- The Airtable update issued by the override branch of match_products,
restricted to the fields the claims mention (timestamps elided). -/
structure OverrideUpdate where
  status : String
  override_amazon_asin : String
  match_confidence_score : Option Int
deriving DecidableEq, Repr

/-- The ASIN-override branch of match_products: an empty override field
skips the record with no update (continue); otherwise the listing is
fetched and parsed, and the update either marks the product Matched at
confidence 100 with the override field cleared, or Not Found with the
override field cleared. fetchRaw stands for the HTTP fetch of
fetch_product_by_asin returning the raw Keepa record or None. -/
def process_asin_override (override_asin : String)
    (fetchRaw : String → Option KeepaData) : Option OverrideUpdate :=
  if override_asin = "" then none
  else
    match (fetchRaw override_asin).map parse_keepa_product with
    | some amazon_data =>
        if truthyQ amazon_data.amazon_price then
          some { status := "Matched", override_amazon_asin := "",
                 match_confidence_score := some 100 }
        else
          some { status := "Not Found", override_amazon_asin := "",
                 match_confidence_score := none }
    | none =>
        some { status := "Not Found", override_amazon_asin := "",
               match_confidence_score := none }

/-! ## Claim-side definitions (stated from the wording of the spec, for
comparison against the source-side definitions above) -/

/-- Spec wording for claim C2: the latest non-zero sample of a series. -/
def latest_nonzero (series : List Int) : Option Int :=
  (series.filter (fun p => decide (p ≠ 0))).getLast?

/-- Spec wording for claims C4 and C5: the confidence before the
price-stability layer (baseline plus layers 1 to 3). -/
def raw_confidence (amazon_data : ProductData) (profit : Option ℚ) : Int :=
  50 + layer1_sales_rank amazon_data.sales_rank + layer2_profit_margin profit
    + layer3_competition amazon_data.offer_count

/-- Spec wording for claim C4: validate_opportunity with the
price-stability layer absent. -/
def validate_opportunity_without_stability (amazon_data : ProductData)
    (profit : Option ℚ) : VResult :=
  finalize (raw_confidence amazon_data profit)

/-- Spec wording for claim C4: the stability adjustment as a function of
the relative deviation of the current price from the historical mean. -/
def stability_delta (price_history : List ℚ) (current : ℚ) : Int :=
  let avg_price := price_history.sum / (price_history.length : ℚ)
  let deviation := |current - avg_price| / avg_price
  if deviation < 10 / 100 then 10
  else if deviation < 25 / 100 then 5
  else -15

/-- Spec wording for claim C5: status as a step function of confidence. -/
def statusOf (confidence : Int) : Status :=
  if 80 ≤ confidence then .Profitable
  else if 60 ≤ confidence then .Potential
  else .Risky

/-- Spec wording for claim C5: the ranking of statuses, low to high. -/
def statusRank : Status → Nat
  | .Risky => 0
  | .Potential => 1
  | .Profitable => 2

/-! ## Sample records used by witnesses and counterexamples -/

/-- A Keepa record with every optional field absent. -/
def kdEmpty : KeepaData :=
  { csv := [], fbaFees := none, offerCountFBA := 0, categoryTree := [],
    packageHeight := none, packageLength := none, packageWidth := none,
    packageWeight := none, itemCount := none, asin := none, title := none }

/-- A concrete candidate priced at 20.00. -/
def kdA : KeepaData := { kdEmpty with asin := some "B00000000A", csv := [[], [2000]] }

/-- A concrete candidate priced at 30.00, distinct from kdA. -/
def kdB : KeepaData := { kdEmpty with asin := some "B00000000B", csv := [[], [3000]] }

/-- A record whose channel-1 series holds a non-zero sample (500) followed
by a zero sample, so the latest sample is not positive. -/
def kdC2 : KeepaData := { kdEmpty with csv := [[], [500, 0]] }

/-- A record whose channel-1 series ends in a positive sample. -/
def kdC2pos : KeepaData := { kdEmpty with csv := [[], [300, 500]] }

/-- A record whose channel-1 series holds ten positive samples. -/
def kdC10 : KeepaData := { kdEmpty with csv := [[], List.replicate 10 100] }

/-- A parsed product with every field at its default. -/
def pdEmpty : ProductData :=
  { asin := none, title := none, amazon_price := none, amazon_url := none,
    fba_fees := 0, sales_rank := none, category := "Unknown", offer_count := 0,
    price_history := [], package_dimensions := none, package_weight := none,
    item_count := 1 }

/-- A parsed product with a 10-sample price history but no current price:
slow sales rank (-20), excellent profit (+20), five offers (+10), so the
mid-range confidence 60 makes any stability adjustment visible. -/
def pdC4 : ProductData :=
  { pdEmpty with
    sales_rank := some 200000
    offer_count := 5
    price_history := List.replicate 10 1 }

/-- A parsed product with a 10-sample price history and a current price
equal to the historical mean. -/
def pdC4stable : ProductData :=
  { pdEmpty with
    sales_rank := some 5000
    offer_count := 5
    price_history := List.replicate 10 1
    amazon_price := some 1 }

/-! ## Claim C7 -/

/-- Claim C7 (confirmed): for cost 20, sale 45, fees 3, the referral cost
is 45 times the referral rate, 6.75; the profit is 15.25 and the ROI is
76.25 percent, both unchanged by the 2-decimal boundary rounding. -/
theorem c7_profit_scenario :
    (45 : ℚ) * amazon_referral_rate = 27 / 4 ∧
    calculate_profit (some 20) (some 45) 3 =
      { profit := some (61 / 4), roi := some (305 / 4) } := by
  constructor
  · norm_num [amazon_referral_rate]
  · norm_num [calculate_profit, falsyQ, truthyQ, round2, amazon_referral_rate,
      round_eq]

/-! ## Helper lemmas -/

/-- A non-empty list has a last element. -/
theorem exists_getLast?_cons {α : Type} (x : α) (xs : List α) :
    ∃ y, (x :: xs).getLast? = some y := by
  induction xs generalizing x with
  | nil => exact ⟨x, rfl⟩
  | cons z zs ih =>
      obtain ⟨y, hy⟩ := ih z
      exact ⟨y, by rw [List.getLast?_cons_cons]; exact hy⟩

/-- Indexing a non-empty list at its last position yields its last element. -/
theorem get?_length_cons {α : Type} (x : α) (xs : List α) :
    (x :: xs).get? xs.length = (x :: xs).getLast? := by
  induction xs generalizing x with
  | nil => rfl
  | cons z zs ih =>
      simpa [List.getLast?_cons_cons, List.length_cons] using ih z

/-- Python subscripting at -1 selects the last element. -/
theorem pyGet_neg_one {α : Type} (l : List α) : pyGet l (-1) = l.getLast? := by
  unfold pyGet
  rw [if_neg (by omega)]
  cases l with
  | nil => simp
  | cons x xs =>
      rw [if_pos (by simp only [List.length_cons]; omega)]
      have ht : ((((x :: xs).length : Int)) + (-1)).toNat = xs.length := by
        simp only [List.length_cons]
        omega
      rw [ht]
      exact get?_length_cons x xs

/-- The amazon_price extraction, below the series guard, inspects exactly
the last sample of csv[1]. -/
theorem amazon_price_of_eq (kd : KeepaData) (h1 : 1 < kd.csv.length) :
    amazon_price_of kd =
      match (kd.csv.getD 1 []).getLast? with
      | some lp => if 0 < lp then some ((lp : ℚ) / 100) else none
      | none => none := by
  unfold amazon_price_of channel1
  have hne : kd.csv ≠ [] := by
    intro h0
    rw [h0] at h1
    simp at h1
  by_cases hinner : kd.csv.getD 1 [] = []
  · rw [if_neg (by tauto), hinner]
  · rw [if_pos ⟨hne, h1, hinner⟩]

/-- With no channel-1 series at index 1, the parsed price is None. -/
theorem amazon_price_of_short (kd : KeepaData) (h1 : kd.csv.length ≤ 1) :
    amazon_price_of kd = none := by
  unfold amazon_price_of channel1
  rw [if_neg (by rintro ⟨_, h2, _⟩; omega)]
  rfl

/-! ## Claim C3 -/

/-- Claim C3, counterexample: for cost -5 (which is at most 0), sale 45 and
fees 0, calculate_profit returns a defined profit 43.25 and an ROI silently
coerced to 0, not the undefined pair the claim requires for cost at most 0. -/
theorem c3_negative_cost_counterexample :
    ((-5 : ℚ) ≤ 0) ∧
    calculate_profit (some (-5)) (some 45) 0 =
      { profit := some (173 / 4), roi := some 0 } := by
  refine ⟨by norm_num, ?_⟩
  norm_num [calculate_profit, falsyQ, truthyQ, round2, amazon_referral_rate,
    round_eq]

/-- Claim C3 (corrected): profit and ROI are None exactly when cost is
missing or zero, or sale price is missing or zero (Python falsiness), not
when cost is merely negative; for a strictly negative cost with a truthy
sale price the result is defined and the ROI is silently coerced to 0. -/
theorem c3_undefined_iff_cost_or_sale_falsy (costco_price amazon_price : Option ℚ)
    (fba_fees : ℚ) :
    ((calculate_profit costco_price amazon_price fba_fees).profit = none ↔
      falsyQ costco_price = true ∨ falsyQ amazon_price = true)
    ∧ ((calculate_profit costco_price amazon_price fba_fees).roi = none ↔
      falsyQ costco_price = true ∨ falsyQ amazon_price = true)
    ∧ (∀ x : ℚ, costco_price = some x → x < 0 → falsyQ amazon_price = false →
        (calculate_profit costco_price amazon_price fba_fees).roi = some 0) := by
  refine ⟨?_, ?_, ?_⟩
  · cases hc : falsyQ costco_price <;> cases ha : falsyQ amazon_price <;>
      simp [calculate_profit, hc, ha]
  · cases hc : falsyQ costco_price <;> cases ha : falsyQ amazon_price <;>
      simp [calculate_profit, hc, ha]
  · intro x hx hneg ha
    subst hx
    have hx0 : x ≠ 0 := ne_of_lt hneg
    have hc : falsyQ (some x) = false := by simp [falsyQ, truthyQ, hx0]
    simp [calculate_profit, hc, ha, not_lt.mpr (le_of_lt hneg), round2]

/-- Claim C3, witness: at cost 0 the profit is None, and at cost -7 with
sale 45 the ROI is the coerced 0. -/
theorem c3_undefined_iff_cost_or_sale_falsy_witness :
    (calculate_profit (some 0) (some 45) 0).profit = none ∧
    (calculate_profit (some (-7)) (some 45) 2).roi = some 0 := by
  constructor
  · exact (c3_undefined_iff_cost_or_sale_falsy (some 0) (some 45) 0).1.mpr
      (Or.inl (by decide))
  · exact (c3_undefined_iff_cost_or_sale_falsy (some (-7)) (some 45) 2).2.2 (-7)
      rfl (by norm_num) (by decide)

/-! ## Claim C2 -/

/-- Claim C2, counterexample: a channel-1 series holding the non-zero
sample 500 followed by a zero sample. The latest non-zero sample exists,
yet the parsed price is None, because the source inspects only the very
last sample and requires it to be positive. -/
theorem c2_latest_sample_counterexample :
    (parse_keepa_product kdC2).amazon_price = none ∧
    latest_nonzero (kdC2.csv.getD 1 []) = some 500 := by
  constructor
  · decide
  · decide

/-- Claim C2 (corrected): the parsed price equals the latest sample of the
channel-1 series divided by 100 when that sample is strictly positive, and
is None exactly when the series is absent or its latest sample is at most
0 -- not the latest non-zero sample of the series. -/
theorem c2_price_is_latest_sample_if_positive (kd : KeepaData) :
    ((parse_keepa_product kd).amazon_price = none ↔
      kd.csv.length ≤ 1 ∨ (kd.csv.getD 1 []).getLast?.getD 0 ≤ 0)
    ∧ (∀ lp : Int, 1 < kd.csv.length → (kd.csv.getD 1 []).getLast? = some lp →
        0 < lp → (parse_keepa_product kd).amazon_price = some ((lp : ℚ) / 100)) := by
  have hp : (parse_keepa_product kd).amazon_price = amazon_price_of kd := rfl
  by_cases h1 : 1 < kd.csv.length
  · rw [hp, amazon_price_of_eq kd h1]
    cases hg : (kd.csv.getD 1 []).getLast? with
    | none =>
        refine ⟨by simp, ?_⟩
        intro lp _ hsome _
        cases hsome
    | some y =>
        dsimp only
        constructor
        · by_cases hpos : 0 < y
          · rw [if_pos hpos]
            simp only [Option.getD_some]
            constructor
            · intro hcon
              cases hcon
            · rintro (hc | hc)
              · omega
              · exact absurd hpos (not_lt.mpr hc)
          · rw [if_neg hpos]
            simp [not_lt.mp hpos]
        · intro lp _ hsome hpos
          injection hsome with he
          subst he
          rw [if_pos hpos]
  · have h1' : kd.csv.length ≤ 1 := not_lt.mp h1
    rw [hp, amazon_price_of_short kd h1']
    exact ⟨⟨fun _ => Or.inl h1', fun _ => rfl⟩,
      fun lp hcon _ _ => absurd hcon (not_lt.mpr h1')⟩

/-- Claim C2, witness: for a series ending in the positive sample 500 the
parsed price is 5.00. -/
theorem c2_price_is_latest_sample_if_positive_witness :
    (parse_keepa_product kdC2pos).amazon_price = some ((500 : ℚ) / 100) :=
  (c2_price_is_latest_sample_if_positive kdC2pos).2 500 (by decide) (by decide)
    (by decide)

/-! ## Claim C1 -/

/-- Claim C1, counterexample: a parsed judgment response with selected
index 0 (the no-match marker) and confidence 80. The source computes the
0-based index 0 - 1 = -1, and the Python subscript wraps around, so the
selector attaches the LAST candidate (kdB) instead of returning no match. -/
theorem c1_index_zero_counterexample :
    validate_best_amazon_match [kdA, kdB]
        (.parsed { best_match_index := some 0, confidence := some 80 }) =
      some { product := parse_keepa_product kdB, match_confidence := 80 } ∧
    parse_keepa_product kdB ≠ parse_keepa_product kdA := by
  constructor
  · rfl
  · intro h
    have ha : (parse_keepa_product kdB).asin = (parse_keepa_product kdA).asin := by
      rw [h]
    exact absurd ha (by decide)

/-- Claim C1 (corrected): for every parsed judgment response, a reported
confidence below 75 yields no match, with no listing attached, whatever
the selected index is (so a candidate is attached only at confidence at
least 75); but a selected index of 0 does NOT by itself yield no match:
at confidence at least 75 the source turns it into the subscript -1,
attaching the last candidate of a non-empty list. -/
theorem c1_confidence_gate (amazon_results : List KeepaData) (r : AIResponse) :
    (r.confidence.getD 0 < 75 →
      validate_best_amazon_match amazon_results (.parsed r) = none)
    ∧ (75 ≤ r.confidence.getD 0 → r.best_match_index = some 0 →
      validate_best_amazon_match amazon_results (.parsed r) =
        amazon_results.getLast?.map (fun chosen =>
          { product := parse_keepa_product chosen,
            match_confidence := r.confidence.getD 0 })) := by
  constructor
  · intro h
    unfold validate_best_amazon_match
    dsimp only
    rw [if_neg (by omega)]
  · intro h75 h0
    unfold validate_best_amazon_match
    dsimp only
    rw [if_pos h75, h0]
    dsimp only
    have hm1 : (0 : Int) - 1 = -1 := by omega
    rw [hm1, pyGet_neg_one]
    cases amazon_results with
    | nil => rfl
    | cons a as =>
        obtain ⟨y, hy⟩ := exists_getLast?_cons a as
        rw [hy]
        rfl

/-- Claim C1, witness: confidence 40 yields no match on a one-candidate
list, and confidence 90 with index 0 wraps to the last candidate. -/
theorem c1_confidence_gate_witness :
    validate_best_amazon_match [kdA]
        (.parsed { best_match_index := some 1, confidence := some 40 }) = none ∧
    validate_best_amazon_match [kdA, kdB]
        (.parsed { best_match_index := some 0, confidence := some 90 }) =
      some { product := parse_keepa_product kdB, match_confidence := 90 } := by
  constructor
  · exact (c1_confidence_gate [kdA]
      { best_match_index := some 1, confidence := some 40 }).1 (by decide)
  · have h := (c1_confidence_gate [kdA, kdB]
      { best_match_index := some 0, confidence := some 90 }).2 (by decide) rfl
    rw [h]
    rfl

/-! ## Claim C8 -/

/-- Claim C8 (confirmed): when the judgment procedure errors or returns
unparseable output, the selector falls back to the first retrieval-ranked
candidate at the fixed default confidence 70 for every non-empty candidate
list, and even for an empty list it returns the no-match value rather than
propagating the failure. -/
theorem c8_fallback_to_first_on_failure (r : KeepaData) (rest : List KeepaData) :
    validate_best_amazon_match (r :: rest) Judgment.failure =
      some { product := parse_keepa_product r, match_confidence := 70 } ∧
    validate_best_amazon_match [] Judgment.failure = none := by
  exact ⟨rfl, rfl⟩

/-! ## Claim C4 -/

/-- Claim C4, counterexample: a candidate with a 10-sample price history
but no current price. The history meets the 10-sample threshold, yet the
price-stability layer makes no adjustment: the result is identical to the
validator with the layer absent, because the source also requires a truthy
current price to enter the layer. -/
theorem c4_ten_samples_no_current_price_counterexample :
    10 ≤ pdC4.price_history.length ∧
    validate_opportunity pdC4 (some 60) =
      some (validate_opportunity_without_stability pdC4 (some 60)) := by
  constructor
  · decide
  · decide

/-- Claim C4 (corrected): the price-stability layer adjusts the confidence
if and only if the history has at least 10 samples AND the current price
is present and non-zero; when it runs (and its mean is non-zero, else the
source raises), it adds 10 for relative deviation below 10 percent, 5
below 25 percent, and -15 otherwise; whenever it is skipped the returned
result is identical to the validator with the layer absent. -/
theorem c4_stability_applied_iff (a : ProductData) (profit : Option ℚ) :
    (a.price_history.length < 10 ∨ truthyQ a.amazon_price = false →
      validate_opportunity a profit =
        some (validate_opportunity_without_stability a profit))
    ∧ (10 ≤ a.price_history.length → truthyQ a.amazon_price = true →
        a.price_history.sum / (a.price_history.length : ℚ) ≠ 0 →
        validate_opportunity a profit =
          some (finalize (raw_confidence a profit
            + stability_delta a.price_history (a.amazon_price.getD 0)))) := by
  constructor
  · intro h
    unfold validate_opportunity
    have hl : layer4_price_stability a.price_history a.amazon_price = some 0 := by
      unfold layer4_price_stability
      rw [if_neg]
      rintro ⟨h1, h2⟩
      rcases h with h | h
      · omega
      · rw [h] at h2
        cases h2
    rw [hl]
    dsimp only
    rw [add_zero]
    rfl
  · intro hlen htr havg
    unfold validate_opportunity
    have hl : layer4_price_stability a.price_history a.amazon_price =
        some (stability_delta a.price_history (a.amazon_price.getD 0)) := by
      simp only [layer4_price_stability, stability_delta]
      rw [if_pos ⟨hlen, htr⟩, if_neg havg]
    rw [hl]
    rfl

/-- Claim C4, witness: an empty history leaves the validator equal to the
layer-absent validator, and a 10-sample history with a current price equal
to the mean gets the stability adjustment applied. -/
theorem c4_stability_applied_iff_witness :
    validate_opportunity pdEmpty none =
      some (validate_opportunity_without_stability pdEmpty none) ∧
    validate_opportunity pdC4stable (some 60) =
      some (finalize (raw_confidence pdC4stable (some 60)
        + stability_delta pdC4stable.price_history
            (pdC4stable.amazon_price.getD 0))) := by
  constructor
  · exact (c4_stability_applied_iff pdEmpty none).1 (Or.inl (by decide))
  · exact (c4_stability_applied_iff pdC4stable (some 60)).2 (by decide) (by decide)
      (by norm_num [pdC4stable, pdEmpty, List.sum_replicate])

/-! ## Claim C5 -/

/-- Status of a finalized result agrees with the step function of the
returned (clamped) confidence: clamping to the 0 to 100 range never moves
a confidence across the 60 or 80 boundary. -/
theorem finalize_status_eq (c : Int) :
    (finalize c).status = statusOf (finalize c).confidence := by
  simp only [finalize, statusOf]
  split_ifs <;> first | rfl | omega

/-- Claim C5 (confirmed): the status returned by validate_opportunity is
the deterministic step function statusOf of the returned confidence
(Profitable at 80 and above, Potential from 60 to below 80, the single
low bucket Risky below 60), and that step function is monotone: a higher
confidence never yields a lower-ranked status. -/
theorem c5_status_step_monotone :
    (∀ (a : ProductData) (profit : Option ℚ) (res : VResult),
        validate_opportunity a profit = some res →
          res.status = statusOf res.confidence)
    ∧ (∀ c1 c2 : Int, c1 ≤ c2 → statusRank (statusOf c1) ≤ statusRank (statusOf c2)) := by
  constructor
  · intro a profit res h
    unfold validate_opportunity at h
    cases hl : layer4_price_stability a.price_history a.amazon_price with
    | none =>
        rw [hl] at h
        cases h
    | some s =>
        rw [hl] at h
        injection h with h
        subst h
        exact finalize_status_eq _
  · intro c1 c2 hle
    unfold statusOf
    split_ifs <;> simp [statusRank] <;> omega

/-- Claim C5, witness: the step function and its monotonicity at concrete
points, via a concrete run of the validator. -/
theorem c5_status_step_monotone_witness :
    (VResult.mk false 0 Status.Risky).status =
      statusOf (VResult.mk false 0 Status.Risky).confidence ∧
    statusRank (statusOf 59) ≤ statusRank (statusOf 85) := by
  constructor
  · exact c5_status_step_monotone.1 pdEmpty none (VResult.mk false 0 Status.Risky)
      (by decide)
  · exact c5_status_step_monotone.2 59 85 (by omega)

/-! ## Claim C6 -/

/-- Claim C6 (confirmed): whenever validate_opportunity returns, the
returned confidence lies in the 0 to 100 range, and the returned is_valid
flag is true exactly when that confidence is at least 60. -/
theorem c6_confidence_clamped_validity (a : ProductData) (profit : Option ℚ)
    (res : VResult) (h : validate_opportunity a profit = some res) :
    (0 ≤ res.confidence ∧ res.confidence ≤ 100) ∧
    (res.is_valid = true ↔ 60 ≤ res.confidence) := by
  unfold validate_opportunity at h
  cases hl : layer4_price_stability a.price_history a.amazon_price with
  | none =>
      rw [hl] at h
      cases h
  | some s =>
      rw [hl] at h
      injection h with h
      subst h
      simp only [finalize]
      refine ⟨⟨?_, ?_⟩, ?_⟩
      · omega
      · omega
      · simp
/-- Claim C6, witness: a concrete run returning confidence 0 with is_valid
false. -/
theorem c6_confidence_clamped_validity_witness :
    ((0 : Int) ≤ 0 ∧ (0 : Int) ≤ 100) ∧
    ((false = true) ↔ (60 : Int) ≤ 0) := by
  exact c6_confidence_clamped_validity pdEmpty none
    (VResult.mk false 0 Status.Risky) (by decide)

/-! ## Claim C9 -/

/-- Claim C9 (confirmed): for every record routed through the ASIN-override
path with a non-empty override ASIN, an update is issued whose override
field is cleared to the empty string, and whose status leaves the override
state: Matched with confidence 100 when the fetched listing has a truthy
price, Not Found when the fetch fails or the listing has no price. (A
record in override status whose override field is already empty is skipped
without a fetch, outside the processing the claim describes.) -/
theorem c9_override_clears_marker (override_asin : String)
    (fetchRaw : String → Option KeepaData) (h : override_asin ≠ "") :
    ∃ u, process_asin_override override_asin fetchRaw = some u ∧
      u.override_amazon_asin = "" ∧
      ((u.status = "Matched" ∧ u.match_confidence_score = some 100) ∨
        (u.status = "Not Found" ∧ u.match_confidence_score = none)) := by
  unfold process_asin_override
  rw [if_neg h]
  cases (fetchRaw override_asin).map parse_keepa_product with
  | none => exact ⟨_, rfl, rfl, Or.inr ⟨rfl, rfl⟩⟩
  | some amazon_data =>
      dsimp only
      by_cases hp : truthyQ amazon_data.amazon_price = true
      · rw [if_pos hp]
        exact ⟨_, rfl, rfl, Or.inl ⟨rfl, rfl⟩⟩
      · rw [if_neg hp]
        exact ⟨_, rfl, rfl, Or.inr ⟨rfl, rfl⟩⟩

/-- Claim C9, witness: a failed fetch for a concrete override ASIN still
clears the override field and moves the status to Not Found. -/
theorem c9_override_clears_marker_witness :
    ∃ u, process_asin_override "B0EXAMPLE11" (fun _ => none) = some u ∧
      u.override_amazon_asin = "" ∧
      ((u.status = "Matched" ∧ u.match_confidence_score = some 100) ∨
        (u.status = "Not Found" ∧ u.match_confidence_score = none)) :=
  c9_override_clears_marker "B0EXAMPLE11" (fun _ => none) (by decide)

/-! ## Claim C10 -/

/-- Claim C10 (confirmed): every entry of a parsed price history is
strictly positive; hence when the history holds at least 10 samples its
mean is strictly positive, and validate_opportunity applied to any parsed
product never hits the division by a zero mean: it always returns a
result. -/
theorem c10_price_history_positive :
    (∀ (kd : KeepaData) (q : ℚ), q ∈ (parse_keepa_product kd).price_history → 0 < q)
    ∧ (∀ kd : KeepaData, 10 ≤ (parse_keepa_product kd).price_history.length →
        0 < (parse_keepa_product kd).price_history.sum /
          ((parse_keepa_product kd).price_history.length : ℚ))
    ∧ (∀ (kd : KeepaData) (profit : Option ℚ),
        (validate_opportunity (parse_keepa_product kd) profit).isSome = true) := by
  have hmem : ∀ (kd : KeepaData) (q : ℚ),
      q ∈ (parse_keepa_product kd).price_history → 0 < q := by
    intro kd q hq
    have hq' : q ∈ price_history_of kd := hq
    simp only [price_history_of, List.mem_map, List.mem_filter,
      decide_eq_true_eq] at hq'
    obtain ⟨p, ⟨hmem2, hppos⟩, hpq⟩ := hq'
    subst hpq
    have hcast : (0 : ℚ) < (p : ℚ) := by exact_mod_cast hppos
    exact div_pos hcast (by norm_num)
  have hmean : ∀ kd : KeepaData,
      10 ≤ (parse_keepa_product kd).price_history.length →
      0 < (parse_keepa_product kd).price_history.sum /
        ((parse_keepa_product kd).price_history.length : ℚ) := by
    intro kd hlen
    have hne : (parse_keepa_product kd).price_history ≠ [] := by
      intro h0
      rw [h0] at hlen
      simp at hlen
    have hsum : 0 < (parse_keepa_product kd).price_history.sum :=
      List.sum_pos _ (fun q hq => hmem kd q hq) hne
    have hlen' : (0 : ℚ) < ((parse_keepa_product kd).price_history.length : ℚ) := by
      have h0 : 0 < (parse_keepa_product kd).price_history.length :=
        Nat.lt_of_lt_of_le (by omega) hlen
      exact_mod_cast h0
    exact div_pos hsum hlen'
  refine ⟨hmem, hmean, ?_⟩
  intro kd profit
  unfold validate_opportunity
  cases hl : layer4_price_stability (parse_keepa_product kd).price_history
      (parse_keepa_product kd).amazon_price with
  | some s => rfl
  | none =>
      exfalso
      simp only [layer4_price_stability] at hl
      by_cases hc : 10 ≤ (parse_keepa_product kd).price_history.length ∧
          truthyQ (parse_keepa_product kd).amazon_price = true
      · rw [if_pos hc] at hl
        rw [if_neg (ne_of_gt (hmean kd hc.1))] at hl
        cases hl
      · rw [if_neg hc] at hl
        cases hl

/-- Claim C10, witness: a record with ten positive channel-1 samples has a
positive sample 1.00 in its parsed history, a positive mean, and a
successful validation run. -/
theorem c10_price_history_positive_witness :
    (0 : ℚ) < 1 ∧
    0 < (parse_keepa_product kdC10).price_history.sum /
        ((parse_keepa_product kdC10).price_history.length : ℚ) ∧
    (validate_opportunity (parse_keepa_product kdC10) none).isSome = true := by
  refine ⟨?_, ?_, ?_⟩
  · exact c10_price_history_positive.1 kdC10 1 (by
      norm_num [parse_keepa_product, price_history_of, channel1, kdC10, kdEmpty,
        List.map_replicate, List.mem_replicate]
      exact ⟨100, ⟨⟨by simp, rfl⟩, by norm_num⟩, by norm_num⟩)
  · exact c10_price_history_positive.2.1 kdC10 (by decide)
  · exact c10_price_history_positive.2.2 kdC10 none
